import Mathlib

/-!
Shallow embedding of the Aetherwear geometric decision engine
(src/Aetherwear_core/__init__.py).  The six pipeline stages are modelled as
pure functions; dictionary lookups with defaults become total functions;
Python floats become exact rationals.  The hash-set deduplication
`list(set(actions))[:5]` of `_generate_actions` has implementation-defined
order, so the engine is parameterised by the function `setList` that turns a
list into a list of its distinct elements; `List.dedup` is one such function.
The wall-clock fields `analysis_id` and `processing_time` of
`GeometricResult` and the audit-log side effect are outside the embedding:
the returned value of interest is the layer-5 result (final_decision,
confidence, risks, recommendations, geometric_balance).
-/

namespace Aetherwear

/-- Characters of a string, lowercased (models Python str.lower applied
before keyword matching). -/
def lowerChars (s : String) : List Char := s.data.map Char.toLower

/-- Does the first character list start with the second? -/
def startsWithChars : List Char → List Char → Bool
  | [], _ => true
  | _ :: _, [] => false
  | c :: cs, d :: ds => c = d && startsWithChars cs ds

/-- Does the second character list occur contiguously inside the first
(Python substring membership test)? -/
def containsSub : List Char → List Char → Bool
  | [], pat => pat.isEmpty
  | s@(_ :: t), pat => startsWithChars pat s || containsSub t pat

/-- The theme labels of `_extract_themes`: the five keyword themes plus the
fallback label "general". -/
inductive Theme where
  | profit | growth | cost | risk | opportunity | general
deriving DecidableEq

/-- The fixed theme_keywords table of `_extract_themes`, in dict insertion
order. -/
def theme_keywords : List (Theme × List String) :=
  [(Theme.profit, ["profit", "revenue", "income", "money"]),
   (Theme.growth, ["grow", "expand", "scale", "increase"]),
   (Theme.cost, ["cost", "save", "cut", "reduce", "efficient"]),
   (Theme.risk, ["risk", "danger", "problem", "issue"]),
   (Theme.opportunity, ["opportunity", "potential", "possibility"])]

/-- `_extract_themes`: lowercase the query, keep every theme one of whose
keywords occurs in it, in table order; fall back to ["general"]. -/
def extract_themes (query : String) : List Theme :=
  let ql := lowerChars query
  let themes :=
    (theme_keywords.filter (fun tk => tk.2.any (fun k => containsSub ql k.data))).map Prod.fst
  if themes.isEmpty then [Theme.general] else themes

/-- `_generate_insight`: the fixed theme-to-insight lookup; the dict has no
entry for "general", which therefore gets the default text.  The context
argument is accepted and ignored, as in the source. -/
def generate_insight {α : Type} (theme : Theme) (context : α) : String :=
  match theme with
  | Theme.profit =>
      "Financial outcomes should balance short-term gains with long-term sustainability"
  | Theme.growth =>
      "Sustainable growth requires solid foundations and careful planning"
  | Theme.cost =>
      "Cost optimization should not compromise quality or future capabilities"
  | Theme.risk =>
      "Risk management is essential but should not stifle innovation"
  | Theme.opportunity =>
      "New opportunities should align with core strengths and values"
  | Theme.general =>
      "Consider multiple perspectives and long-term impacts"

/-- `_vesica_piscis_layer`: one insight per extracted theme; Python keeps an
insight only when it is truthy, i.e. a nonempty string. -/
def vesica_piscis_layer {α : Type} (query : String) (context : α) : List String :=
  ((extract_themes query).map (fun t => generate_insight t context)).filter
    (fun s => !s.isEmpty)

/-- The seven fixed pattern names of `_seed_of_life_layer`. -/
inductive Pattern where
  | growth_expansion | stability_structure | connection_relationship
  | innovation_creativity | efficiency_optimization | risk_challenge
  | opportunity_potential
deriving DecidableEq

/-- The seven pattern keys in dict insertion order. -/
def patternNames : List Pattern :=
  [Pattern.growth_expansion, Pattern.stability_structure,
   Pattern.connection_relationship, Pattern.innovation_creativity,
   Pattern.efficiency_optimization, Pattern.risk_challenge,
   Pattern.opportunity_potential]

/-- The snake_case key string of each pattern (used by the outcome text). -/
def patternName : Pattern → String
  | Pattern.growth_expansion => "growth_expansion"
  | Pattern.stability_structure => "stability_structure"
  | Pattern.connection_relationship => "connection_relationship"
  | Pattern.innovation_creativity => "innovation_creativity"
  | Pattern.efficiency_optimization => "efficiency_optimization"
  | Pattern.risk_challenge => "risk_challenge"
  | Pattern.opportunity_potential => "opportunity_potential"

/-- The pattern_indicators table of `_calculate_pattern_strength`. -/
def pattern_indicators : Pattern → List String
  | Pattern.growth_expansion => ["grow", "expand", "increase", "scale", "more"]
  | Pattern.stability_structure => ["stable", "secure", "foundation", "reliable"]
  | Pattern.connection_relationship =>
      ["connect", "relationship", "partner", "collaborate"]
  | Pattern.innovation_creativity =>
      ["innovate", "create", "new", "invent", "breakthrough"]
  | Pattern.efficiency_optimization =>
      ["efficient", "optimize", "streamline", "improve"]
  | Pattern.risk_challenge => ["risk", "problem", "challenge", "threat", "danger"]
  | Pattern.opportunity_potential =>
      ["opportunity", "potential", "possibility", "future"]

/-- `_calculate_pattern_strength`: matched indicators over total indicators,
capped at 1. -/
def calculate_pattern_strength (insight : String) (p : Pattern) : ℚ :=
  let indicators := pattern_indicators p
  let matchCount := indicators.countP (fun ind => containsSub (lowerChars insight) ind.data)
  min ((matchCount : ℚ) / ((max indicators.length 1 : ℕ) : ℚ)) 1

/-- `_seed_of_life_layer`: every pattern score starts at 0 and is folded with
max over the insights. -/
def seed_of_life_layer (insights : List String) : Pattern → ℚ :=
  fun p =>
    insights.foldl (fun cur insight => max cur (calculate_pattern_strength insight p)) 0

/-- The three fixed complementary pattern pairs of
`_calculate_connection_strength`. -/
def complementary_pairs : List (Pattern × Pattern) :=
  [(Pattern.growth_expansion, Pattern.stability_structure),
   (Pattern.innovation_creativity, Pattern.efficiency_optimization),
   (Pattern.risk_challenge, Pattern.opportunity_potential)]

/-- `_calculate_connection_strength`: base 0.8 for a complementary pair in
either order, otherwise 0.3, scaled by the mean of the two scores. -/
def calculate_connection_strength (a b : Pattern) (patterns : Pattern → ℚ) : ℚ :=
  let base : ℚ :=
    if (a, b) ∈ complementary_pairs ∨ (b, a) ∈ complementary_pairs then 0.8 else 0.3
  base * (patterns a + patterns b) / 2

/-- One step of a stable descending insertion sort on (pattern, score)
pairs: the new item goes in front of the first already-placed item whose
score is at most its own. -/
def insertDesc (x : Pattern × ℚ) : List (Pattern × ℚ) → List (Pattern × ℚ)
  | [] => [x]
  | y :: ys => if y.2 ≤ x.2 then x :: y :: ys else y :: insertDesc x ys

/-- Stable sort of (pattern, score) pairs by descending score; equal scores
keep their original order, as Python sorted(..., reverse=True) does. -/
def sorted_desc (l : List (Pattern × ℚ)) : List (Pattern × ℚ) :=
  l.foldr insertDesc []

/-- `_find_central_patterns`: the three highest-scoring patterns, stably
sorted descending (the connections argument is accepted and unused, as in
the source). -/
def find_central_patterns (patterns : Pattern → ℚ)
    (connections : List ((Pattern × Pattern) × ℚ)) : List Pattern :=
  ((sorted_desc (patternNames.map (fun p => (p, patterns p)))).take 3).map Prod.fst

/-- `_calculate_network_density`: mean of the connection values, 0 when
there are none. -/
def calculate_network_density (connections : List ((Pattern × Pattern) × ℚ)) : ℚ :=
  if connections.isEmpty then 0
  else (connections.map Prod.snd).sum / (connections.length : ℚ)

/-- The network dict built by `_flower_of_life_layer`. -/
structure Network where
  nodes : Pattern → ℚ
  connections : List ((Pattern × Pattern) × ℚ)
  central_patterns : List Pattern
  network_density : ℚ

/-- `_flower_of_life_layer`: one connection for every ordered pair of
distinct patterns, plus the central patterns and the density. -/
def flower_of_life_layer (patterns : Pattern → ℚ) : Network :=
  let connections :=
    patternNames.flatMap (fun a =>
      (patternNames.filter (fun b => b ≠ a)).map
        (fun b => ((a, b), calculate_connection_strength a b patterns)))
  { nodes := patterns
    connections := connections
    central_patterns := find_central_patterns patterns connections
    network_density := calculate_network_density connections }

/-- The five strategy labels of `_fruit_of_life_layer`. -/
inductive Strategy where
  | aggressive | balanced | conservative | innovative | efficient
deriving DecidableEq

/-- The strategy_types list, in source order. -/
def strategy_types : List Strategy :=
  [Strategy.aggressive, Strategy.balanced, Strategy.conservative,
   Strategy.innovative, Strategy.efficient]

/-- `_get_strategy_approach`: fixed description per strategy (every
strategy is in the dict, so the "Balanced approach" default is unreachable). -/
def get_strategy_approach : Strategy → String
  | Strategy.aggressive => "Rapid implementation with high potential returns"
  | Strategy.balanced => "Measured approach considering multiple factors"
  | Strategy.conservative => "Cautious implementation minimizing risks"
  | Strategy.innovative => "Creative solutions exploring new possibilities"
  | Strategy.efficient => "Optimized approach maximizing resource usage"

/-- The base_actions table of `_generate_actions`. -/
def base_actions : Strategy → List String
  | Strategy.aggressive =>
      ["Implement quickly", "Allocate maximum resources", "Set ambitious targets"]
  | Strategy.balanced =>
      ["Plan carefully", "Balance resources", "Set realistic targets"]
  | Strategy.conservative =>
      ["Test thoroughly", "Allocate minimal resources", "Set cautious targets"]
  | Strategy.innovative =>
      ["Explore new methods", "Encourage creativity", "Accept calculated risks"]
  | Strategy.efficient =>
      ["Optimize processes", "Measure everything", "Eliminate waste"]

/-- The pattern_actions table of `_generate_actions`: empty for the four
patterns that are not in the dict. -/
def pattern_actions : Pattern → List String
  | Pattern.growth_expansion => ["Focus on market expansion", "Increase capacity"]
  | Pattern.stability_structure => ["Strengthen foundations", "Build resilience"]
  | Pattern.innovation_creativity => ["Invest in R&D", "Encourage innovation"]
  | _ => []

/-- A function that behaves like Python list(set(...)): its output lists the
distinct elements of its input, each exactly once, in some order. -/
def SetListFn (f : List String → List String) : Prop :=
  ∀ l : List String, (f l).Nodup ∧ ∀ a : String, a ∈ f l ↔ a ∈ l

/-- `_generate_actions`: the strategy base actions, extended by the actions
of every listed pattern that is in pattern_actions, deduplicated by the
given set-to-list function and truncated to 5. -/
def generate_actions (setList : List String → List String) (strategy : Strategy)
    (patterns : List Pattern) : List String :=
  (setList (base_actions strategy ++ patterns.flatMap pattern_actions)).take 5

/-- A solution blueprint dict of `_generate_blueprint`. -/
structure Blueprint where
  strategy : Strategy
  focus_patterns : List Pattern
  approach : String
  key_actions : List String
  expected_outcome : String
  risk_level : String

/-- `_generate_blueprint`: note that key_actions is generated from ALL the
central patterns, while focus_patterns keeps only the first two. -/
def generate_blueprint (setList : List String → List String) (strategy : Strategy)
    (network : Network) (query : String) : Blueprint :=
  let central := network.central_patterns
  { strategy := strategy
    focus_patterns := central.take 2
    approach := get_strategy_approach strategy
    key_actions := generate_actions setList strategy central
    expected_outcome :=
      "Balanced approach focusing on " ++
        String.intercalate ", " ((central.take 2).map patternName)
    risk_level :=
      if strategy = Strategy.balanced then "medium"
      else if strategy = Strategy.aggressive then "high" else "low" }

/-- `_fruit_of_life_layer`: one blueprint per strategy, in strategy_types
order (the truthiness test on the blueprint dict always passes). -/
def fruit_of_life_layer (setList : List String → List String) (network : Network)
    (query : String) : List Blueprint :=
  strategy_types.map (fun s => generate_blueprint setList s network query)

/-- The five Platonic dimension scores of `_metatrons_cube_layer`. -/
structure Scores where
  action_focus : ℚ
  stability_foundation : ℚ
  clarity_logic : ℚ
  adaptability_empathy : ℚ
  purpose_potential : ℚ
deriving DecidableEq

/-- `_evaluate_action_focus`. -/
def evaluate_action_focus (b : Blueprint) : ℚ :=
  if b.strategy = Strategy.aggressive then 0.9
  else if b.strategy = Strategy.balanced then 0.7 else 0.5

/-- `_evaluate_stability`. -/
def evaluate_stability (b : Blueprint) : ℚ :=
  if b.risk_level = "low" then 0.9
  else if b.risk_level = "medium" then 0.7 else 0.4

/-- `_evaluate_clarity`: 0.2 per key action, capped at 1. -/
def evaluate_clarity (b : Blueprint) : ℚ :=
  min ((b.key_actions.length : ℚ) * 0.2) 1

/-- `_evaluate_adaptability`. -/
def evaluate_adaptability (b : Blueprint) : ℚ :=
  if b.strategy = Strategy.balanced ∨ b.strategy = Strategy.innovative then 0.8
  else 0.5

/-- `_evaluate_purpose`. -/
def evaluate_purpose (b : Blueprint) : ℚ :=
  if Pattern.opportunity_potential ∈ b.focus_patterns ∨
      Pattern.innovation_creativity ∈ b.focus_patterns then 0.9
  else 0.6

/-- Sum of the five dimension scores (Python sum(scores.values())). -/
def scoresSum (s : Scores) : ℚ :=
  s.action_focus + s.stability_foundation + s.clarity_logic +
    s.adaptability_empathy + s.purpose_potential

/-- `_identify_risks`: one fixed message per dimension below 0.3, else the
single fallback message. -/
def identify_risks (s : Scores) : List String :=
  let risks :=
    (if s.action_focus < 0.3 then ["Lacks clear action plan"] else []) ++
    (if s.stability_foundation < 0.3 then ["High instability risk"] else []) ++
    (if s.clarity_logic < 0.3 then ["Unclear implementation path"] else []) ++
    (if s.adaptability_empathy < 0.3 then ["Inflexible to changes"] else []) ++
    (if s.purpose_potential < 0.3 then ["Limited long-term potential"] else [])
  if risks.isEmpty then ["Low to moderate risks identified"] else risks

/-- `_generate_recommendations`: one fixed suggestion per dimension below
0.7, else the single fallback message. -/
def generate_recommendations (s : Scores) : List String :=
  let recommendations :=
    (if s.action_focus < 0.7 then ["Define clearer action steps"] else []) ++
    (if s.stability_foundation < 0.7 then ["Strengthen foundational elements"] else []) ++
    (if s.clarity_logic < 0.7 then ["Improve plan clarity and logic"] else []) ++
    (if s.adaptability_empathy < 0.7 then
      ["Increase flexibility and consideration of impacts"] else []) ++
    (if s.purpose_potential < 0.7 then ["Enhance long-term strategic alignment"] else [])
  if recommendations.isEmpty then ["Well-balanced approach"] else recommendations

/-- An evaluated solution dict of `_metatrons_cube_layer`. -/
structure EvaluatedSolution where
  solution : Blueprint
  scores : Scores
  overall_score : ℚ
  risks : List String
  recommendations : List String

/-- The evaluation of one blueprint inside `_metatrons_cube_layer`:
the five dimension scores, their mean, the risks and the recommendations. -/
def evaluate_solution (b : Blueprint) : EvaluatedSolution :=
  let scores : Scores :=
    { action_focus := evaluate_action_focus b
      stability_foundation := evaluate_stability b
      clarity_logic := evaluate_clarity b
      adaptability_empathy := evaluate_adaptability b
      purpose_potential := evaluate_purpose b }
  { solution := b
    scores := scores
    overall_score := scoresSum scores / 5
    risks := identify_risks scores
    recommendations := generate_recommendations scores }

/-- Python max(list, key=...): the fold keeps the current element unless a
later one is strictly greater, so the first maximal element wins. -/
def maxByFirst (key : EvaluatedSolution → ℚ) (x : EvaluatedSolution)
    (l : List EvaluatedSolution) : EvaluatedSolution :=
  l.foldl (fun cur y => if key cur < key y then y else cur) x

/-- `_metatrons_cube_layer`: evaluate every blueprint and select the best by
overall score; Python max raises on an empty list, modelled by none. -/
def metatrons_cube_layer (solutions : List Blueprint) : Option EvaluatedSolution :=
  match solutions.map evaluate_solution with
  | [] => none
  | e :: es => some (maxByFirst EvaluatedSolution.overall_score e es)

/-- The layer-5 result dict (the decision-relevant fields of
GeometricResult). -/
structure FinalDecision where
  final_decision : String
  confidence : ℚ
  risks : List String
  recommendations : List String
  geometric_balance : Scores

/-- `_apply_domain_knowledge`: three domain templates, defaulting to the
business one; only the business default embeds the winning blueprint. -/
def apply_domain_knowledge (domain : String) (decision : EvaluatedSolution) :
    FinalDecision :=
  let text :=
    if domain = "business" then
      "Business strategy: " ++ decision.solution.expected_outcome
    else if domain = "personal" then
      "Personal decision: Consider life balance and long-term happiness"
    else if domain = "ecological" then
      "Ecological approach: Prioritize sustainability and system health"
    else "Business strategy: " ++ decision.solution.expected_outcome
  { final_decision := text
    confidence := decision.overall_score
    risks := decision.risks
    recommendations := decision.recommendations
    geometric_balance := decision.scores }

/-- `_conscious_field_layer`: domain wisdom for the text, the winning
solution's values for everything else (the audit-log call is a side effect
outside the returned value). -/
def conscious_field_layer (decision : EvaluatedSolution) (query domain : String) :
    FinalDecision :=
  let domain_wisdom := apply_domain_knowledge domain decision
  { final_decision := domain_wisdom.final_decision
    confidence := decision.overall_score
    risks := decision.risks
    recommendations := decision.recommendations
    geometric_balance := decision.scores }

/-- `GeometricEngine.process`: the six layers composed. -/
def process (setList : List String → List String) {α : Type} (query domain : String)
    (context : α) : Option FinalDecision :=
  let insights := vesica_piscis_layer query context
  let patterns := seed_of_life_layer insights
  let network := flower_of_life_layer patterns
  let solutions := fruit_of_life_layer setList network query
  (metatrons_cube_layer solutions).map
    (fun decision => conscious_field_layer decision query domain)

/-- The spec's (section 4.4) description of key_actions, for comparison with
the source's `_generate_actions`: the pattern-specific actions are keyed by
the FOCUS patterns only, i.e. the first two central patterns. -/
def spec_key_actions (strategy : Strategy) (focus : List Pattern) : List String :=
  (List.dedup (base_actions strategy ++ focus.flatMap pattern_actions)).take 5

/-! Helper lemmas about the engine. -/

/-- `List.dedup` is one admissible realisation of Python list(set(...)). -/
lemma setListFn_dedup : SetListFn List.dedup :=
  fun l => ⟨List.nodup_dedup l, fun _ => List.mem_dedup⟩

/-- Reversing a deduplication is another admissible realisation. -/
lemma setListFn_rev_dedup : SetListFn (fun l => (List.dedup l).reverse) :=
  fun l => ⟨List.nodup_reverse.mpr (List.nodup_dedup l),
    fun a => List.mem_reverse.trans List.mem_dedup⟩

/-- Any set-to-list function returns as many elements as the input has
distinct ones. -/
lemma length_setList (f : List String → List String) (hf : SetListFn f)
    (l : List String) : (f l).length = l.toFinset.card := by
  have h1 : (f l).toFinset = l.toFinset := by
    ext a
    simp only [List.mem_toFinset]
    exact (hf l).2 a
  rw [← List.toFinset_card_of_nodup (hf l).1, h1]

/-- Membership in the pattern-keyed action pool: only the three patterns
with entries in pattern_actions can contribute. -/
lemma mem_flatMap_pactions (l : List Pattern) (a : String) :
    a ∈ l.flatMap pattern_actions ↔
      ((Pattern.growth_expansion ∈ l ∧ a ∈ pattern_actions Pattern.growth_expansion) ∨
       (Pattern.stability_structure ∈ l ∧ a ∈ pattern_actions Pattern.stability_structure) ∨
       (Pattern.innovation_creativity ∈ l ∧ a ∈ pattern_actions Pattern.innovation_creativity)) := by
  rw [List.mem_flatMap]
  constructor
  · rintro ⟨p, hp, ha⟩
    cases p
    case growth_expansion => exact Or.inl ⟨hp, ha⟩
    case stability_structure => exact Or.inr (Or.inl ⟨hp, ha⟩)
    case innovation_creativity => exact Or.inr (Or.inr ⟨hp, ha⟩)
    all_goals simp [pattern_actions] at ha
  · rintro (⟨hp, ha⟩ | ⟨hp, ha⟩ | ⟨hp, ha⟩) <;> exact ⟨_, hp, ha⟩

/-- The set of pattern-keyed actions depends only on which of the three
action-bearing patterns occur in the list. -/
lemma pactions_toFinset (l : List Pattern) :
    (l.flatMap pattern_actions).toFinset =
      (if Pattern.growth_expansion ∈ l then
        (pattern_actions Pattern.growth_expansion).toFinset else ∅) ∪
      (if Pattern.stability_structure ∈ l then
        (pattern_actions Pattern.stability_structure).toFinset else ∅) ∪
      (if Pattern.innovation_creativity ∈ l then
        (pattern_actions Pattern.innovation_creativity).toFinset else ∅) := by
  ext a
  simp only [List.mem_toFinset, Finset.mem_union, mem_flatMap_pactions]
  constructor
  · rintro (⟨hp, ha⟩ | ⟨hp, ha⟩ | ⟨hp, ha⟩)
    · exact Or.inl (Or.inl (by rw [if_pos hp]; simpa using ha))
    · exact Or.inl (Or.inr (by rw [if_pos hp]; simpa using ha))
    · exact Or.inr (by rw [if_pos hp]; simpa using ha)
  · rintro ((h | h) | h)
    · by_cases hm : Pattern.growth_expansion ∈ l
      · rw [if_pos hm] at h
        exact Or.inl ⟨hm, by simpa using h⟩
      · rw [if_neg hm] at h
        simp at h
    · by_cases hm : Pattern.stability_structure ∈ l
      · rw [if_pos hm] at h
        exact Or.inr (Or.inl ⟨hm, by simpa using h⟩)
      · rw [if_neg hm] at h
        simp at h
    · by_cases hm : Pattern.innovation_creativity ∈ l
      · rw [if_pos hm] at h
        exact Or.inr (Or.inr ⟨hm, by simpa using h⟩)
      · rw [if_neg hm] at h
        simp at h

/-- How many pattern-keyed actions a pattern list brings in: two per
action-bearing pattern that occurs in it. -/
def pcount (l : List Pattern) : ℕ :=
  (if Pattern.growth_expansion ∈ l then 2 else 0) +
  (if Pattern.stability_structure ∈ l then 2 else 0) +
  (if Pattern.innovation_creativity ∈ l then 2 else 0)

/-- The generated action list has min (3 + pcount) 5 entries: three base
actions plus two per action-bearing listed pattern, truncated at five. -/
lemma generate_actions_length (f : List String → List String) (hf : SetListFn f)
    (s : Strategy) (l : List Pattern) :
    (generate_actions f s l).length = min (3 + pcount l) 5 := by
  unfold generate_actions
  rw [List.length_take, length_setList f hf, List.toFinset_append, pactions_toFinset]
  by_cases hg : Pattern.growth_expansion ∈ l <;>
    by_cases hs2 : Pattern.stability_structure ∈ l <;>
      by_cases hi : Pattern.innovation_creativity ∈ l <;>
        simp only [pcount, hg, hs2, hi, if_true, if_false, ite_true, ite_false] <;>
          cases s <;> decide

/-- pcount only takes the values 0, 2, 4 and 6. -/
lemma pcount_cases (l : List Pattern) :
    pcount l = 0 ∨ pcount l = 2 ∨ pcount l = 4 ∨ pcount l = 6 := by
  unfold pcount
  by_cases hg : Pattern.growth_expansion ∈ l <;>
    by_cases hs2 : Pattern.stability_structure ∈ l <;>
      by_cases hi : Pattern.innovation_creativity ∈ l <;>
        simp [hg, hs2, hi]

/-- The clarity score of any generated blueprint: 0.6 when no central
pattern brings in actions, else 1; it does not depend on the strategy. -/
lemma evaluate_clarity_eq (f : List String → List String) (hf : SetListFn f)
    (s : Strategy) (network : Network) (q : String) :
    evaluate_clarity (generate_blueprint f s network q) =
      if pcount network.central_patterns = 0 then 0.6 else 1 := by
  have hlen : (generate_blueprint f s network q).key_actions.length =
      min (3 + pcount network.central_patterns) 5 :=
    generate_actions_length f hf s network.central_patterns
  unfold evaluate_clarity
  rw [hlen]
  rcases pcount_cases network.central_patterns with h | h | h | h <;> rw [h] <;> norm_num

/-- The purpose score of any generated blueprint depends only on the first
two central patterns, not on the strategy. -/
lemma evaluate_purpose_eq (f : List String → List String) (s : Strategy)
    (network : Network) (q : String) :
    evaluate_purpose (generate_blueprint f s network q) =
      if Pattern.opportunity_potential ∈ network.central_patterns.take 2 ∨
          Pattern.innovation_creativity ∈ network.central_patterns.take 2 then
        (0.9 : ℚ) else 0.6 := rfl

/-- The overall score is the mean of the five dimension evaluations. -/
lemma overall_decomp (b : Blueprint) :
    (evaluate_solution b).overall_score =
      (evaluate_action_focus b + evaluate_stability b + evaluate_clarity b +
        evaluate_adaptability b + evaluate_purpose b) / 5 := rfl

/-- The clarity score of a generated blueprint is 0.6 or 1. -/
lemma clarity_val (f : List String → List String) (hf : SetListFn f) (s : Strategy)
    (network : Network) (q : String) :
    evaluate_clarity (generate_blueprint f s network q) = 0.6 ∨
      evaluate_clarity (generate_blueprint f s network q) = 1 := by
  rw [evaluate_clarity_eq f hf s network q]
  by_cases h : pcount network.central_patterns = 0
  · exact Or.inl (if_pos h)
  · exact Or.inr (if_neg h)

/-- The purpose score of a generated blueprint is 0.6 or 0.9. -/
lemma purpose_val (f : List String → List String) (s : Strategy)
    (network : Network) (q : String) :
    evaluate_purpose (generate_blueprint f s network q) = 0.6 ∨
      evaluate_purpose (generate_blueprint f s network q) = 0.9 := by
  rw [evaluate_purpose_eq f s network q]
  by_cases h : Pattern.opportunity_potential ∈ network.central_patterns.take 2 ∨
      Pattern.innovation_creativity ∈ network.central_patterns.take 2
  · exact Or.inr (if_pos h)
  · exact Or.inl (if_neg h)

/-- Field projections of the layer-5 record. -/
lemma conscious_confidence (d : EvaluatedSolution) (q dom : String) :
    (conscious_field_layer d q dom).confidence = d.overall_score := rfl

lemma conscious_risks (d : EvaluatedSolution) (q dom : String) :
    (conscious_field_layer d q dom).risks = d.risks := rfl

lemma conscious_recommendations (d : EvaluatedSolution) (q dom : String) :
    (conscious_field_layer d q dom).recommendations = d.recommendations := rfl

lemma conscious_balance (d : EvaluatedSolution) (q dom : String) :
    (conscious_field_layer d q dom).geometric_balance = d.scores := rfl

/-- Field projections of an evaluated solution. -/
lemma eval_risks (b : Blueprint) :
    (evaluate_solution b).risks = identify_risks (evaluate_solution b).scores := rfl

lemma eval_recommendations (b : Blueprint) :
    (evaluate_solution b).recommendations =
      generate_recommendations (evaluate_solution b).scores := rfl

lemma eval_overall (b : Blueprint) :
    (evaluate_solution b).overall_score = scoresSum (evaluate_solution b).scores / 5 := rfl

lemma eval_scores (b : Blueprint) :
    (evaluate_solution b).scores =
      { action_focus := evaluate_action_focus b
        stability_foundation := evaluate_stability b
        clarity_logic := evaluate_clarity b
        adaptability_empathy := evaluate_adaptability b
        purpose_potential := evaluate_purpose b } := rfl

/-- Field projections of a generated blueprint. -/
lemma blueprint_key_actions (f : List String → List String) (s : Strategy)
    (network : Network) (q : String) :
    (generate_blueprint f s network q).key_actions =
      generate_actions f s network.central_patterns := rfl

lemma blueprint_focus (f : List String → List String) (s : Strategy)
    (network : Network) (q : String) :
    (generate_blueprint f s network q).focus_patterns =
      network.central_patterns.take 2 := rfl

/-- Fixed dimension values of the balanced blueprint. -/
lemma af_balanced (f : List String → List String) (network : Network) (q : String) :
    evaluate_action_focus (generate_blueprint f Strategy.balanced network q) = 0.7 := by
  simp [evaluate_action_focus, generate_blueprint]

lemma st_balanced (f : List String → List String) (network : Network) (q : String) :
    evaluate_stability (generate_blueprint f Strategy.balanced network q) = 0.7 := by
  simp [evaluate_stability, generate_blueprint]

lemma ad_balanced (f : List String → List String) (network : Network) (q : String) :
    evaluate_adaptability (generate_blueprint f Strategy.balanced network q) = 0.8 := by
  simp [evaluate_adaptability, generate_blueprint]

/-- When no dimension is below 0.3, identify_risks returns the fallback. -/
lemma identify_risks_fallback (s : Scores) (h1 : ¬ s.action_focus < 0.3)
    (h2 : ¬ s.stability_foundation < 0.3) (h3 : ¬ s.clarity_logic < 0.3)
    (h4 : ¬ s.adaptability_empathy < 0.3) (h5 : ¬ s.purpose_potential < 0.3) :
    identify_risks s = ["Low to moderate risks identified"] := by
  unfold identify_risks
  rw [if_neg h1, if_neg h2, if_neg h3, if_neg h4, if_neg h5]
  rfl

/-- An if-empty-fallback expression is never the empty list when the
fallback is not. -/
lemma ite_isEmpty_ne_nil (L F : List String) (hF : F ≠ []) :
    (if L.isEmpty then F else L) ≠ [] := by
  by_cases h : L.isEmpty
  · rw [if_pos h]
    exact hF
  · rw [if_neg h]
    intro hc
    rw [hc] at h
    exact h rfl

/-- identify_risks never returns the empty list. -/
lemma identify_risks_ne_nil (s : Scores) : identify_risks s ≠ [] := by
  unfold identify_risks
  exact ite_isEmpty_ne_nil _ _ (by simp)

/-- generate_recommendations never returns the empty list. -/
lemma generate_recommendations_ne_nil (s : Scores) : generate_recommendations s ≠ [] := by
  unfold generate_recommendations
  exact ite_isEmpty_ne_nil _ _ (by simp)

/-- Dimension projections of an evaluated solution. -/
lemma eval_af (b : Blueprint) :
    (evaluate_solution b).scores.action_focus = evaluate_action_focus b := rfl

lemma eval_stab (b : Blueprint) :
    (evaluate_solution b).scores.stability_foundation = evaluate_stability b := rfl

lemma eval_cl (b : Blueprint) :
    (evaluate_solution b).scores.clarity_logic = evaluate_clarity b := rfl

lemma eval_ad (b : Blueprint) :
    (evaluate_solution b).scores.adaptability_empathy = evaluate_adaptability b := rfl

lemma eval_pp (b : Blueprint) :
    (evaluate_solution b).scores.purpose_potential = evaluate_purpose b := rfl

/-- The five overall scores, expressed through the shared clarity value c
and purpose value p: balanced and innovative tie at (2.2+c+p)/5, which
strictly exceeds the scores of the remaining three strategies. -/
lemma overall_vals (f : List String → List String) (hf : SetListFn f)
    (network : Network) (q : String) :
    ∃ c p : ℚ, (c = 0.6 ∨ c = 1) ∧ (p = 0.6 ∨ p = 0.9) ∧
      (evaluate_solution (generate_blueprint f Strategy.aggressive network q)).overall_score =
        (0.9 + 0.4 + c + 0.5 + p) / 5 ∧
      (evaluate_solution (generate_blueprint f Strategy.balanced network q)).overall_score =
        (0.7 + 0.7 + c + 0.8 + p) / 5 ∧
      (evaluate_solution (generate_blueprint f Strategy.conservative network q)).overall_score =
        (0.5 + 0.9 + c + 0.5 + p) / 5 ∧
      (evaluate_solution (generate_blueprint f Strategy.innovative network q)).overall_score =
        (0.5 + 0.9 + c + 0.8 + p) / 5 ∧
      (evaluate_solution (generate_blueprint f Strategy.efficient network q)).overall_score =
        (0.5 + 0.9 + c + 0.5 + p) / 5 := by
  have hcs : ∀ s : Strategy,
      evaluate_clarity (generate_blueprint f s network q) =
        evaluate_clarity (generate_blueprint f Strategy.balanced network q) :=
    fun s => (evaluate_clarity_eq f hf s network q).trans
      (evaluate_clarity_eq f hf Strategy.balanced network q).symm
  have hps : ∀ s : Strategy,
      evaluate_purpose (generate_blueprint f s network q) =
        evaluate_purpose (generate_blueprint f Strategy.balanced network q) :=
    fun _ => rfl
  refine ⟨evaluate_clarity (generate_blueprint f Strategy.balanced network q),
    evaluate_purpose (generate_blueprint f Strategy.balanced network q),
    clarity_val f hf Strategy.balanced network q,
    purpose_val f Strategy.balanced network q, ?_, ?_, ?_, ?_, ?_⟩
  · rw [overall_decomp, hcs Strategy.aggressive, hps Strategy.aggressive]
    simp [evaluate_action_focus, evaluate_stability, evaluate_adaptability,
      generate_blueprint]
  · rw [overall_decomp, hcs Strategy.balanced, hps Strategy.balanced]
    simp [evaluate_action_focus, evaluate_stability, evaluate_adaptability,
      generate_blueprint]
  · rw [overall_decomp, hcs Strategy.conservative, hps Strategy.conservative]
    simp [evaluate_action_focus, evaluate_stability, evaluate_adaptability,
      generate_blueprint]
  · rw [overall_decomp, hcs Strategy.innovative, hps Strategy.innovative]
    simp [evaluate_action_focus, evaluate_stability, evaluate_adaptability,
      generate_blueprint]
  · rw [overall_decomp, hcs Strategy.efficient, hps Strategy.efficient]
    simp [evaluate_action_focus, evaluate_stability, evaluate_adaptability,
      generate_blueprint]

/-- Layer 4 always selects the balanced blueprint: balanced and innovative
tie on the maximal overall score, every other strategy scores strictly
lower, and Python max keeps the first maximal element. -/
lemma winner (f : List String → List String) (hf : SetListFn f)
    (network : Network) (q : String) :
    metatrons_cube_layer (fruit_of_life_layer f network q) =
      some (evaluate_solution (generate_blueprint f Strategy.balanced network q)) := by
  have hcs : ∀ s : Strategy,
      evaluate_clarity (generate_blueprint f s network q) =
        evaluate_clarity (generate_blueprint f Strategy.balanced network q) :=
    fun s => (evaluate_clarity_eq f hf s network q).trans
      (evaluate_clarity_eq f hf Strategy.balanced network q).symm
  have hps : ∀ s : Strategy,
      evaluate_purpose (generate_blueprint f s network q) =
        evaluate_purpose (generate_blueprint f Strategy.balanced network q) :=
    fun _ => rfl
  set c := evaluate_clarity (generate_blueprint f Strategy.balanced network q) with hc
  set p := evaluate_purpose (generate_blueprint f Strategy.balanced network q) with hp
  have oA : (evaluate_solution (generate_blueprint f Strategy.aggressive network q)).overall_score =
      (0.9 + 0.4 + c + 0.5 + p) / 5 := by
    rw [overall_decomp, hcs Strategy.aggressive, hps Strategy.aggressive]
    simp [evaluate_action_focus, evaluate_stability, evaluate_adaptability,
      generate_blueprint]
  have oB : (evaluate_solution (generate_blueprint f Strategy.balanced network q)).overall_score =
      (0.7 + 0.7 + c + 0.8 + p) / 5 := by
    rw [overall_decomp, hcs Strategy.balanced, hps Strategy.balanced]
    simp [evaluate_action_focus, evaluate_stability, evaluate_adaptability,
      generate_blueprint]
  have oC : (evaluate_solution (generate_blueprint f Strategy.conservative network q)).overall_score =
      (0.5 + 0.9 + c + 0.5 + p) / 5 := by
    rw [overall_decomp, hcs Strategy.conservative, hps Strategy.conservative]
    simp [evaluate_action_focus, evaluate_stability, evaluate_adaptability,
      generate_blueprint]
  have oI : (evaluate_solution (generate_blueprint f Strategy.innovative network q)).overall_score =
      (0.5 + 0.9 + c + 0.8 + p) / 5 := by
    rw [overall_decomp, hcs Strategy.innovative, hps Strategy.innovative]
    simp [evaluate_action_focus, evaluate_stability, evaluate_adaptability,
      generate_blueprint]
  have oE : (evaluate_solution (generate_blueprint f Strategy.efficient network q)).overall_score =
      (0.5 + 0.9 + c + 0.5 + p) / 5 := by
    rw [overall_decomp, hcs Strategy.efficient, hps Strategy.efficient]
    simp [evaluate_action_focus, evaluate_stability, evaluate_adaptability,
      generate_blueprint]
  have hm : metatrons_cube_layer (fruit_of_life_layer f network q) =
      some (maxByFirst EvaluatedSolution.overall_score
        (evaluate_solution (generate_blueprint f Strategy.aggressive network q))
        [evaluate_solution (generate_blueprint f Strategy.balanced network q),
         evaluate_solution (generate_blueprint f Strategy.conservative network q),
         evaluate_solution (generate_blueprint f Strategy.innovative network q),
         evaluate_solution (generate_blueprint f Strategy.efficient network q)]) := rfl
  rw [hm]
  simp only [maxByFirst, List.foldl_cons, List.foldl_nil]
  have h1 : EvaluatedSolution.overall_score
        (evaluate_solution (generate_blueprint f Strategy.aggressive network q)) <
      EvaluatedSolution.overall_score
        (evaluate_solution (generate_blueprint f Strategy.balanced network q)) := by
    rw [show EvaluatedSolution.overall_score
        (evaluate_solution (generate_blueprint f Strategy.aggressive network q)) =
        (0.9 + 0.4 + c + 0.5 + p) / 5 from oA,
      show EvaluatedSolution.overall_score
        (evaluate_solution (generate_blueprint f Strategy.balanced network q)) =
        (0.7 + 0.7 + c + 0.8 + p) / 5 from oB]
    linarith
  rw [if_pos h1]
  have h2 : ¬ EvaluatedSolution.overall_score
        (evaluate_solution (generate_blueprint f Strategy.balanced network q)) <
      EvaluatedSolution.overall_score
        (evaluate_solution (generate_blueprint f Strategy.conservative network q)) := by
    rw [show EvaluatedSolution.overall_score
        (evaluate_solution (generate_blueprint f Strategy.balanced network q)) =
        (0.7 + 0.7 + c + 0.8 + p) / 5 from oB,
      show EvaluatedSolution.overall_score
        (evaluate_solution (generate_blueprint f Strategy.conservative network q)) =
        (0.5 + 0.9 + c + 0.5 + p) / 5 from oC]
    linarith
  rw [if_neg h2]
  have h3 : ¬ EvaluatedSolution.overall_score
        (evaluate_solution (generate_blueprint f Strategy.balanced network q)) <
      EvaluatedSolution.overall_score
        (evaluate_solution (generate_blueprint f Strategy.innovative network q)) := by
    rw [show EvaluatedSolution.overall_score
        (evaluate_solution (generate_blueprint f Strategy.balanced network q)) =
        (0.7 + 0.7 + c + 0.8 + p) / 5 from oB,
      show EvaluatedSolution.overall_score
        (evaluate_solution (generate_blueprint f Strategy.innovative network q)) =
        (0.5 + 0.9 + c + 0.8 + p) / 5 from oI]
    linarith
  rw [if_neg h3]
  have h4 : ¬ EvaluatedSolution.overall_score
        (evaluate_solution (generate_blueprint f Strategy.balanced network q)) <
      EvaluatedSolution.overall_score
        (evaluate_solution (generate_blueprint f Strategy.efficient network q)) := by
    rw [show EvaluatedSolution.overall_score
        (evaluate_solution (generate_blueprint f Strategy.balanced network q)) =
        (0.7 + 0.7 + c + 0.8 + p) / 5 from oB,
      show EvaluatedSolution.overall_score
        (evaluate_solution (generate_blueprint f Strategy.efficient network q)) =
        (0.5 + 0.9 + c + 0.5 + p) / 5 from oE]
    linarith
  rw [if_neg h4]

/-- The whole pipeline, rewritten through the winning balanced blueprint. -/
lemma process_eq (f : List String → List String) (hf : SetListFn f) {α : Type}
    (q dom : String) (ctx : α) :
    process f q dom ctx =
      some (conscious_field_layer
        (evaluate_solution (generate_blueprint f Strategy.balanced
          (flower_of_life_layer (seed_of_life_layer (vesica_piscis_layer q ctx))) q))
        q dom) := by
  show (metatrons_cube_layer (fruit_of_life_layer f
      (flower_of_life_layer (seed_of_life_layer (vesica_piscis_layer q ctx))) q)).map
        (fun decision => conscious_field_layer decision q dom) = _
  rw [winner f hf]
  rfl

/-! The claim theorems. -/

/-- C1: for every input, the confidence of the returned FinalDecision equals
the arithmetic mean of the 5 values of its geometric_balance map (the
winning blueprint's 5 dimension scores). -/
theorem confidence_is_mean_of_balance :
    ∀ (q dom : String) {α : Type} (ctx : α),
      ∃ w : FinalDecision, process List.dedup q dom ctx = some w ∧
        w.confidence =
          (w.geometric_balance.action_focus + w.geometric_balance.stability_foundation +
            w.geometric_balance.clarity_logic + w.geometric_balance.adaptability_empathy +
            w.geometric_balance.purpose_potential) / 5 := by
  intro q dom α ctx
  exact ⟨_, process_eq List.dedup setListFn_dedup q dom ctx, rfl⟩

/-- C9: in every analysis the balanced blueprint wins (tying with
innovative on the maximal overall score, which the enumeration-order
tie-break resolves to balanced), so the winner's risk_level is "medium" and
the confidence is one of 0.68, 0.74, 0.76, 0.82. -/
theorem winner_always_balanced :
    ∀ (q dom : String) {α : Type} (ctx : α),
      ∃ best : EvaluatedSolution,
        metatrons_cube_layer (fruit_of_life_layer List.dedup
          (flower_of_life_layer (seed_of_life_layer (vesica_piscis_layer q ctx))) q) =
            some best ∧
        best.solution.strategy = Strategy.balanced ∧
        best.solution.risk_level = "medium" ∧
        (evaluate_solution (generate_blueprint List.dedup Strategy.balanced
            (flower_of_life_layer (seed_of_life_layer (vesica_piscis_layer q ctx)))
            q)).overall_score =
          (evaluate_solution (generate_blueprint List.dedup Strategy.innovative
            (flower_of_life_layer (seed_of_life_layer (vesica_piscis_layer q ctx)))
            q)).overall_score ∧
        ∃ w : FinalDecision, process List.dedup q dom ctx = some w ∧
          (w.confidence = 0.68 ∨ w.confidence = 0.74 ∨ w.confidence = 0.76 ∨
            w.confidence = 0.82) := by
  intro q dom α ctx
  obtain ⟨c, p, hc, hp, oA, oB, oC, oI, oE⟩ :=
    overall_vals List.dedup setListFn_dedup
      (flower_of_life_layer (seed_of_life_layer (vesica_piscis_layer q ctx))) q
  refine ⟨_, winner List.dedup setListFn_dedup _ q, rfl, rfl, ?_,
    _, process_eq List.dedup setListFn_dedup q dom ctx, ?_⟩
  · rw [oB, oI]
    ring_nf
  · rw [conscious_confidence, oB]
    rcases hc with h | h <;> rcases hp with h2 | h2 <;> rw [h, h2] <;> norm_num

/-- C10: the risks list of the FinalDecision is always exactly the single
fallback message, because no dimension score of the winning blueprint can
fall below 0.3. -/
theorem risks_always_fallback :
    ∀ (q dom : String) {α : Type} (ctx : α),
      ∃ w : FinalDecision, process List.dedup q dom ctx = some w ∧
        w.risks = ["Low to moderate risks identified"] := by
  intro q dom α ctx
  refine ⟨_, process_eq List.dedup setListFn_dedup q dom ctx, ?_⟩
  rw [conscious_risks, eval_risks]
  refine identify_risks_fallback _ ?_ ?_ ?_ ?_ ?_
  · rw [eval_af, af_balanced]
    norm_num
  · rw [eval_stab, st_balanced]
    norm_num
  · rw [eval_cl]
    rcases clarity_val List.dedup setListFn_dedup Strategy.balanced
        (flower_of_life_layer (seed_of_life_layer (vesica_piscis_layer q ctx))) q with
      h | h <;> rw [h] <;> norm_num
  · rw [eval_ad, ad_balanced]
    norm_num
  · rw [eval_pp]
    rcases purpose_val List.dedup Strategy.balanced
        (flower_of_life_layer (seed_of_life_layer (vesica_piscis_layer q ctx))) q with
      h | h <;> rw [h] <;> norm_num

/-- C5: normal operation never fails: the themes of the empty query are
exactly ["general"], and for every query, domain (recognised or not) and
context the pipeline returns a FinalDecision with confidence in [0, 1] and
nonempty risks and recommendations. -/
theorem pipeline_total_never_fails :
    extract_themes "" = [Theme.general] ∧
    ∀ (q dom : String) {α : Type} (ctx : α),
      ∃ w : FinalDecision, process List.dedup q dom ctx = some w ∧
        0 ≤ w.confidence ∧ w.confidence ≤ 1 ∧ w.risks ≠ [] ∧ w.recommendations ≠ [] := by
  refine ⟨by decide, ?_⟩
  intro q dom α ctx
  obtain ⟨c, p, hc, hp, oA, oB, oC, oI, oE⟩ :=
    overall_vals List.dedup setListFn_dedup
      (flower_of_life_layer (seed_of_life_layer (vesica_piscis_layer q ctx))) q
  refine ⟨_, process_eq List.dedup setListFn_dedup q dom ctx, ?_, ?_, ?_, ?_⟩
  · rw [conscious_confidence, oB]
    rcases hc with h | h <;> rcases hp with h2 | h2 <;> rw [h, h2] <;> norm_num
  · rw [conscious_confidence, oB]
    rcases hc with h | h <;> rcases hp with h2 | h2 <;> rw [h, h2] <;> norm_num
  · rw [conscious_risks, eval_risks]
    exact identify_risks_ne_nil _
  · rw [conscious_recommendations, eval_recommendations]
    exact generate_recommendations_ne_nil _

/-- C8: the domain label affects only the final decision text: confidence,
risks, recommendations and geometric_balance are the winning solution's
values unchanged, identical across all domain labels, and the ecological
domain always yields the fixed ecological template. -/
theorem domain_only_affects_text :
    ∀ (q : String) {α : Type} (ctx : α) (dom dom1 dom2 : String),
      ((process List.dedup q dom1 ctx).map
          (fun w => (w.confidence, w.risks, w.recommendations, w.geometric_balance)) =
        (process List.dedup q dom2 ctx).map
          (fun w => (w.confidence, w.risks, w.recommendations, w.geometric_balance))) ∧
      (∃ (w : FinalDecision) (best : EvaluatedSolution),
        process List.dedup q dom ctx = some w ∧
        metatrons_cube_layer (fruit_of_life_layer List.dedup
          (flower_of_life_layer (seed_of_life_layer (vesica_piscis_layer q ctx))) q) =
            some best ∧
        w.confidence = best.overall_score ∧ w.risks = best.risks ∧
        w.recommendations = best.recommendations ∧ w.geometric_balance = best.scores) ∧
      ∃ w : FinalDecision, process List.dedup q "ecological" ctx = some w ∧
        w.final_decision =
          "Ecological approach: Prioritize sustainability and system health" := by
  intro q α ctx dom dom1 dom2
  refine ⟨?_,
    ⟨_, _, process_eq List.dedup setListFn_dedup q dom ctx,
      winner List.dedup setListFn_dedup _ q, rfl, rfl, rfl, rfl⟩,
    _, process_eq List.dedup setListFn_dedup q "ecological" ctx, ?_⟩
  · rw [process_eq List.dedup setListFn_dedup q dom1 ctx,
      process_eq List.dedup setListFn_dedup q dom2 ctx]
    rfl
  · rfl

/-- C3: determinism: the returned FinalDecision does not depend on the
iteration order of the hash-set deduplication in action generation — any
two admissible set-to-list functions give identical results, and repeated
runs with one function trivially coincide. -/
theorem process_deterministic (f g : List String → List String)
    (hf : SetListFn f) (hg : SetListFn g) :
    ∀ (q dom : String) {α : Type} (ctx : α),
      process f q dom ctx = process g q dom ctx := by
  intro q dom α ctx
  rw [process_eq f hf q dom ctx, process_eq g hg q dom ctx]
  have hscores : (evaluate_solution (generate_blueprint f Strategy.balanced
      (flower_of_life_layer (seed_of_life_layer (vesica_piscis_layer q ctx))) q)).scores =
      (evaluate_solution (generate_blueprint g Strategy.balanced
        (flower_of_life_layer (seed_of_life_layer (vesica_piscis_layer q ctx))) q)).scores := by
    rw [eval_scores, eval_scores]
    have hcl : evaluate_clarity (generate_blueprint f Strategy.balanced
        (flower_of_life_layer (seed_of_life_layer (vesica_piscis_layer q ctx))) q) =
        evaluate_clarity (generate_blueprint g Strategy.balanced
          (flower_of_life_layer (seed_of_life_layer (vesica_piscis_layer q ctx))) q) :=
      (evaluate_clarity_eq f hf _ _ _).trans (evaluate_clarity_eq g hg _ _ _).symm
    rw [hcl]
    rfl
  have hover : (evaluate_solution (generate_blueprint f Strategy.balanced
      (flower_of_life_layer (seed_of_life_layer (vesica_piscis_layer q ctx)))
      q)).overall_score =
      (evaluate_solution (generate_blueprint g Strategy.balanced
        (flower_of_life_layer (seed_of_life_layer (vesica_piscis_layer q ctx)))
        q)).overall_score := by
    rw [eval_overall, eval_overall, hscores]
  have hrisks : (evaluate_solution (generate_blueprint f Strategy.balanced
      (flower_of_life_layer (seed_of_life_layer (vesica_piscis_layer q ctx))) q)).risks =
      (evaluate_solution (generate_blueprint g Strategy.balanced
        (flower_of_life_layer (seed_of_life_layer (vesica_piscis_layer q ctx))) q)).risks := by
    rw [eval_risks, eval_risks, hscores]
  have hrecs : (evaluate_solution (generate_blueprint f Strategy.balanced
      (flower_of_life_layer (seed_of_life_layer (vesica_piscis_layer q ctx)))
      q)).recommendations =
      (evaluate_solution (generate_blueprint g Strategy.balanced
        (flower_of_life_layer (seed_of_life_layer (vesica_piscis_layer q ctx)))
        q)).recommendations := by
    rw [eval_recommendations, eval_recommendations, hscores]
  congr 1
  simp only [conscious_field_layer, apply_domain_knowledge, FinalDecision.mk.injEq]
  exact ⟨rfl, hover, hrisks, hrecs, hscores⟩

/-- Witness for C3: two genuinely different deduplication orders give the
same FinalDecision on a concrete input. -/
theorem process_deterministic_witness :
    process List.dedup "cut risk" "business" (0 : ℕ) =
      process (fun l => (List.dedup l).reverse) "cut risk" "business" (0 : ℕ) :=
  process_deterministic List.dedup (fun l => (List.dedup l).reverse)
    setListFn_dedup setListFn_rev_dedup "cut risk" "business" (0 : ℕ)

/-- C4: layer 4 selects a blueprint of maximal overall score, and on ties
the first one in the fixed strategy enumeration order: the evaluated list
(in enumeration order) splits around the selected solution so that
everything before it scores strictly lower and nothing scores higher. -/
theorem best_solution_first_max :
    ∀ (q : String) {α : Type} (ctx : α),
      ∃ (sel : EvaluatedSolution) (l1 l2 : List EvaluatedSolution),
        metatrons_cube_layer (fruit_of_life_layer List.dedup
          (flower_of_life_layer (seed_of_life_layer (vesica_piscis_layer q ctx))) q) =
            some sel ∧
        (fruit_of_life_layer List.dedup
          (flower_of_life_layer (seed_of_life_layer (vesica_piscis_layer q ctx))) q).map
            evaluate_solution = l1 ++ sel :: l2 ∧
        (∀ y ∈ l1, y.overall_score < sel.overall_score) ∧
        (∀ y ∈ (fruit_of_life_layer List.dedup
          (flower_of_life_layer (seed_of_life_layer (vesica_piscis_layer q ctx))) q).map
            evaluate_solution, y.overall_score ≤ sel.overall_score) := by
  intro q α ctx
  obtain ⟨c, p, hc, hp, oA, oB, oC, oI, oE⟩ :=
    overall_vals List.dedup setListFn_dedup
      (flower_of_life_layer (seed_of_life_layer (vesica_piscis_layer q ctx))) q
  refine ⟨_,
    [evaluate_solution (generate_blueprint List.dedup Strategy.aggressive
      (flower_of_life_layer (seed_of_life_layer (vesica_piscis_layer q ctx))) q)],
    [evaluate_solution (generate_blueprint List.dedup Strategy.conservative
      (flower_of_life_layer (seed_of_life_layer (vesica_piscis_layer q ctx))) q),
     evaluate_solution (generate_blueprint List.dedup Strategy.innovative
      (flower_of_life_layer (seed_of_life_layer (vesica_piscis_layer q ctx))) q),
     evaluate_solution (generate_blueprint List.dedup Strategy.efficient
      (flower_of_life_layer (seed_of_life_layer (vesica_piscis_layer q ctx))) q)],
    winner List.dedup setListFn_dedup _ q, rfl, ?_, ?_⟩
  · intro y hy
    rw [List.mem_singleton] at hy
    subst hy
    rw [oA, oB]
    linarith
  · intro y hy
    rw [show (fruit_of_life_layer List.dedup
        (flower_of_life_layer (seed_of_life_layer (vesica_piscis_layer q ctx))) q).map
          evaluate_solution =
        [evaluate_solution (generate_blueprint List.dedup Strategy.aggressive
          (flower_of_life_layer (seed_of_life_layer (vesica_piscis_layer q ctx))) q),
         evaluate_solution (generate_blueprint List.dedup Strategy.balanced
          (flower_of_life_layer (seed_of_life_layer (vesica_piscis_layer q ctx))) q),
         evaluate_solution (generate_blueprint List.dedup Strategy.conservative
          (flower_of_life_layer (seed_of_life_layer (vesica_piscis_layer q ctx))) q),
         evaluate_solution (generate_blueprint List.dedup Strategy.innovative
          (flower_of_life_layer (seed_of_life_layer (vesica_piscis_layer q ctx))) q),
         evaluate_solution (generate_blueprint List.dedup Strategy.efficient
          (flower_of_life_layer (seed_of_life_layer (vesica_piscis_layer q ctx))) q)]
      from rfl] at hy
    simp only [List.mem_cons, List.not_mem_nil, or_false] at hy
    rcases hy with h | h | h | h | h
    · subst h
      rw [oA, oB]
      linarith
    · subst h
      exact le_rfl
    · subst h
      rw [oC, oB]
      linarith
    · subst h
      rw [oI, oB]
      linarith
    · subst h
      rw [oE, oB]
      linarith

/-- Specification of a fold with max: the result dominates the seed and
every mapped element, and is the seed or one of the mapped elements. -/
lemma foldl_max_spec (g : String → ℚ) (l : List String) (a : ℚ) :
    a ≤ l.foldl (fun cur i => max cur (g i)) a ∧
    (∀ i ∈ l, g i ≤ l.foldl (fun cur i => max cur (g i)) a) ∧
    (l.foldl (fun cur i => max cur (g i)) a = a ∨
      ∃ i ∈ l, l.foldl (fun cur i => max cur (g i)) a = g i) := by
  induction l generalizing a with
  | nil => simp
  | cons x xs ih =>
    simp only [List.foldl_cons]
    obtain ⟨h1, h2, h3⟩ := ih (max a (g x))
    refine ⟨le_trans (le_max_left a (g x)) h1, ?_, ?_⟩
    · intro i hi
      rcases List.mem_cons.mp hi with h | h
      · subst h
        exact le_trans (le_max_right a (g i)) h1
      · exact h2 i h
    · rcases h3 with h | ⟨i, hi, h⟩
      · rcases max_choice a (g x) with hm | hm
        · exact Or.inl (h.trans hm)
        · exact Or.inr ⟨x, List.mem_cons_self x xs, h.trans hm⟩
      · exact Or.inr ⟨i, List.mem_cons_of_mem x hi, h⟩

/-- A single pattern strength is between 0 and 1. -/
lemma strength_nonneg (i : String) (p : Pattern) :
    0 ≤ calculate_pattern_strength i p := by
  unfold calculate_pattern_strength
  exact le_min (div_nonneg (Nat.cast_nonneg _) (Nat.cast_nonneg _)) zero_le_one

lemma strength_le_one (i : String) (p : Pattern) :
    calculate_pattern_strength i p ≤ 1 :=
  min_le_right _ _

/-- C7: the pattern scorer folds per-insight strengths with max, not sum:
every pattern's score bounds each per-insight strength from above and is
attained by one of them (or is the initial 0), appending an insight never
lowers a score, every score stays in [0, 1], and all 7 pattern keys are
present. -/
theorem pattern_scores_max_fold :
    ∀ (insights : List String) (extra : String) (p : Pattern),
      (0 ≤ seed_of_life_layer insights p ∧ seed_of_life_layer insights p ≤ 1) ∧
      seed_of_life_layer insights p ≤ seed_of_life_layer (insights ++ [extra]) p ∧
      (∀ i ∈ insights, calculate_pattern_strength i p ≤ seed_of_life_layer insights p) ∧
      (seed_of_life_layer insights p = 0 ∨
        ∃ i ∈ insights, seed_of_life_layer insights p = calculate_pattern_strength i p) ∧
      patternNames.length = 7 ∧ ∀ p2 : Pattern, p2 ∈ patternNames := by
  intro insights extra p
  obtain ⟨h1, h2, h3⟩ :=
    foldl_max_spec (fun i => calculate_pattern_strength i p) insights 0
  refine ⟨⟨h1, ?_⟩, ?_, h2, h3, rfl, ?_⟩
  · rcases h3 with h | ⟨i, _, h⟩
    · rw [show seed_of_life_layer insights p =
        insights.foldl (fun cur i => max cur (calculate_pattern_strength i p)) 0
        from rfl, h]
      norm_num
    · rw [show seed_of_life_layer insights p =
        insights.foldl (fun cur i => max cur (calculate_pattern_strength i p)) 0
        from rfl, h]
      exact strength_le_one i p
  · show insights.foldl (fun cur i => max cur (calculate_pattern_strength i p)) 0 ≤
      (insights ++ [extra]).foldl
        (fun cur i => max cur (calculate_pattern_strength i p)) 0
    rw [List.foldl_append]
    exact le_max_left _ _
  · intro p2
    cases p2 <;> decide

/-- C6: every ordered pair of distinct patterns gets connection strength
base times the mean of the two scores, with base 0.8 exactly on the three
complementary pairs (in either order) and 0.3 otherwise; there are 42
connections; density is their mean, 0 for an empty connection dict, and 0
when all seven pattern scores are 0. -/
theorem connection_strength_and_density :
    (∀ (patterns : Pattern → ℚ) (a b : Pattern), a ≠ b →
      ((flower_of_life_layer patterns).connections).lookup (a, b) =
        some ((if (a, b) ∈ complementary_pairs ∨ (b, a) ∈ complementary_pairs then
          (0.8 : ℚ) else 0.3) * (patterns a + patterns b) / 2)) ∧
    (∀ patterns : Pattern → ℚ, (flower_of_life_layer patterns).connections.length = 42) ∧
    calculate_network_density [] = 0 ∧
    (flower_of_life_layer (fun _ => 0)).network_density = 0 := by
  refine ⟨?_, fun patterns => rfl, rfl, ?_⟩
  · intro patterns a b hab
    cases a <;> cases b <;> first
      | exact absurd rfl hab
      | rfl
  · simp [calculate_network_density, flower_of_life_layer, patternNames,
      calculate_connection_strength]

/-- Evaluation helper: a pattern strength from its concrete match count and
indicator count. -/
lemma cps_val (i : String) (p : Pattern) (m n : ℕ)
    (hm : (pattern_indicators p).countP
      (fun ind => containsSub (lowerChars i) ind.data) = m)
    (hn : (pattern_indicators p).length = n) :
    calculate_pattern_strength i p = min ((m : ℚ) / ((max n 1 : ℕ) : ℚ)) 1 := by
  have h : calculate_pattern_strength i p =
      min ((((pattern_indicators p).countP
        (fun ind => containsSub (lowerChars i) ind.data) : ℕ) : ℚ) /
          (((max (pattern_indicators p).length 1 : ℕ)) : ℚ)) 1 := rfl
  rw [h, hm, hn]

/-- Evaluation helper: the seed layer over exactly two insights. -/
lemma seed_two (i1 i2 : String) (p : Pattern) :
    seed_of_life_layer [i1, i2] p =
      max (max 0 (calculate_pattern_strength i1 p)) (calculate_pattern_strength i2 p) := rfl

/-- Projection of the flower layer's central patterns. -/
lemma flower_central (patterns : Pattern → ℚ) :
    (flower_of_life_layer patterns).central_patterns =
      find_central_patterns patterns (flower_of_life_layer patterns).connections := rfl

/-- For the query "cut risk" the central patterns are opportunity_potential
(score 1/4 from the cost insight), risk_challenge (score 1/5 from the risk
insight) and, by the zero-score tie-break, growth_expansion. -/
lemma central_cut_risk :
    (flower_of_life_layer (seed_of_life_layer
        (vesica_piscis_layer "cut risk" (0 : ℕ)))).central_patterns =
      [Pattern.opportunity_potential, Pattern.risk_challenge,
       Pattern.growth_expansion] := by
  have hv : vesica_piscis_layer "cut risk" (0 : ℕ) =
      ["Cost optimization should not compromise quality or future capabilities",
       "Risk management is essential but should not stifle innovation"] := by decide
  rw [hv]
  have sG : seed_of_life_layer
      ["Cost optimization should not compromise quality or future capabilities",
       "Risk management is essential but should not stifle innovation"]
      Pattern.growth_expansion = 0 := by
    rw [seed_two, cps_val _ _ 0 5 (by decide) (by decide),
      cps_val _ _ 0 5 (by decide) (by decide)]
    norm_num
  have sS : seed_of_life_layer
      ["Cost optimization should not compromise quality or future capabilities",
       "Risk management is essential but should not stifle innovation"]
      Pattern.stability_structure = 0 := by
    rw [seed_two, cps_val _ _ 0 4 (by decide) (by decide),
      cps_val _ _ 0 4 (by decide) (by decide)]
    norm_num
  have sC : seed_of_life_layer
      ["Cost optimization should not compromise quality or future capabilities",
       "Risk management is essential but should not stifle innovation"]
      Pattern.connection_relationship = 0 := by
    rw [seed_two, cps_val _ _ 0 4 (by decide) (by decide),
      cps_val _ _ 0 4 (by decide) (by decide)]
    norm_num
  have sI : seed_of_life_layer
      ["Cost optimization should not compromise quality or future capabilities",
       "Risk management is essential but should not stifle innovation"]
      Pattern.innovation_creativity = 0 := by
    rw [seed_two, cps_val _ _ 0 5 (by decide) (by decide),
      cps_val _ _ 0 5 (by decide) (by decide)]
    norm_num
  have sE : seed_of_life_layer
      ["Cost optimization should not compromise quality or future capabilities",
       "Risk management is essential but should not stifle innovation"]
      Pattern.efficiency_optimization = 0 := by
    rw [seed_two, cps_val _ _ 0 4 (by decide) (by decide),
      cps_val _ _ 0 4 (by decide) (by decide)]
    norm_num
  have sR : seed_of_life_layer
      ["Cost optimization should not compromise quality or future capabilities",
       "Risk management is essential but should not stifle innovation"]
      Pattern.risk_challenge = 1 / 5 := by
    rw [seed_two, cps_val _ _ 0 5 (by decide) (by decide),
      cps_val _ _ 1 5 (by decide) (by decide)]
    norm_num
  have sO : seed_of_life_layer
      ["Cost optimization should not compromise quality or future capabilities",
       "Risk management is essential but should not stifle innovation"]
      Pattern.opportunity_potential = 1 / 4 := by
    rw [seed_two, cps_val _ _ 1 4 (by decide) (by decide),
      cps_val _ _ 0 4 (by decide) (by decide)]
    norm_num
  rw [flower_central]
  unfold find_central_patterns
  have hitems : patternNames.map (fun p => (p, seed_of_life_layer
      ["Cost optimization should not compromise quality or future capabilities",
       "Risk management is essential but should not stifle innovation"] p)) =
      [(Pattern.growth_expansion, 0), (Pattern.stability_structure, 0),
       (Pattern.connection_relationship, 0), (Pattern.innovation_creativity, 0),
       (Pattern.efficiency_optimization, 0), (Pattern.risk_challenge, 1 / 5),
       (Pattern.opportunity_potential, 1 / 4)] := by
    simp only [patternNames, List.map_cons, List.map_nil, sG, sS, sC, sI, sE, sR, sO]
  rw [hitems]
  have hsort : sorted_desc
      [(Pattern.growth_expansion, 0), (Pattern.stability_structure, 0),
       (Pattern.connection_relationship, 0), (Pattern.innovation_creativity, 0),
       (Pattern.efficiency_optimization, 0), (Pattern.risk_challenge, 1 / 5),
       (Pattern.opportunity_potential, 1 / 4)] =
      [(Pattern.opportunity_potential, 1 / 4), (Pattern.risk_challenge, 1 / 5),
       (Pattern.growth_expansion, 0), (Pattern.stability_structure, 0),
       (Pattern.connection_relationship, 0), (Pattern.innovation_creativity, 0),
       (Pattern.efficiency_optimization, 0)] := by
    norm_num [sorted_desc, insertDesc, List.foldr_cons, List.foldr_nil]
  rw [hsort]
  decide

/-- Counterexample for C2: in the analysis of the query "cut risk" the
focus patterns are [opportunity_potential, risk_challenge], neither of
which has pattern-specific actions, yet the aggressive blueprint's
key_actions also contain the actions of the third central pattern
growth_expansion — so key_actions differs from the spec's focus-keyed
combination. -/
theorem key_actions_beyond_focus_cex :
    (generate_blueprint List.dedup Strategy.aggressive
        (flower_of_life_layer (seed_of_life_layer (vesica_piscis_layer "cut risk" (0 : ℕ))))
        "cut risk").key_actions ≠
      spec_key_actions Strategy.aggressive
        (generate_blueprint List.dedup Strategy.aggressive
          (flower_of_life_layer (seed_of_life_layer (vesica_piscis_layer "cut risk" (0 : ℕ))))
          "cut risk").focus_patterns := by
  rw [blueprint_key_actions, blueprint_focus, central_cut_risk]
  decide

/-- C2 as amended: a blueprint's key_actions is the deduplicated union of
the strategy's base actions and the pattern-specific actions keyed by ALL
the central patterns (not only the two focus patterns), truncated to at
most 5 entries; focus_patterns is still the first two central patterns. -/
theorem key_actions_from_central_patterns :
    ∀ (q : String) {α : Type} (ctx : α) (s : Strategy),
      (generate_blueprint List.dedup s
        (flower_of_life_layer (seed_of_life_layer (vesica_piscis_layer q ctx)))
        q).focus_patterns =
        (flower_of_life_layer (seed_of_life_layer
          (vesica_piscis_layer q ctx))).central_patterns.take 2 ∧
      (generate_blueprint List.dedup s
        (flower_of_life_layer (seed_of_life_layer (vesica_piscis_layer q ctx)))
        q).key_actions =
        (List.dedup (base_actions s ++
          (flower_of_life_layer (seed_of_life_layer
            (vesica_piscis_layer q ctx))).central_patterns.flatMap
              pattern_actions)).take 5 ∧
      (generate_blueprint List.dedup s
        (flower_of_life_layer (seed_of_life_layer (vesica_piscis_layer q ctx)))
        q).key_actions.Nodup ∧
      (generate_blueprint List.dedup s
        (flower_of_life_layer (seed_of_life_layer (vesica_piscis_layer q ctx)))
        q).key_actions.length ≤ 5 ∧
      ∀ a ∈ (generate_blueprint List.dedup s
        (flower_of_life_layer (seed_of_life_layer (vesica_piscis_layer q ctx)))
        q).key_actions,
        a ∈ base_actions s ∨
          ∃ p2 ∈ (flower_of_life_layer (seed_of_life_layer
            (vesica_piscis_layer q ctx))).central_patterns, a ∈ pattern_actions p2 := by
  intro q α ctx s
  refine ⟨rfl, rfl, ?_, ?_, ?_⟩
  · rw [blueprint_key_actions]
    unfold generate_actions
    exact (List.take_sublist 5 _).nodup (List.nodup_dedup _)
  · rw [blueprint_key_actions]
    unfold generate_actions
    exact List.length_take_le 5 _
  · intro a ha
    rw [blueprint_key_actions] at ha
    unfold generate_actions at ha
    have h2 := List.take_subset 5 _ ha
    rw [List.mem_dedup] at h2
    rcases List.mem_append.mp h2 with h | h
    · exact Or.inl h
    · exact Or.inr (List.mem_flatMap.mp h)

end Aetherwear
